import Mathlib

/-!
# Verification of the Customer Insights Dashboard frontend

A shallow embedding of the Angular frontend of the customer-insights
dashboard: the `AppService` HTTP service (`app.service.ts`) and the
`AppComponent` view component (`app.component.ts`).

* HTTP requests are modelled as a `Request` value carrying a method, a URL
  and a list of query parameters (key/value pairs of strings), matching the
  `HttpParams` builder.
* The component is a record `AppComponent` of the class fields.  Each
  Angular method is split into the synchronous part that runs when the
  method is called (`...Start`, which also returns the list of requests it
  issues) and the asynchronous `next`/`error` subscription handlers
  (`...Success` / `...Error`).
* Optional TypeScript values (`string | undefined`, `number | undefined`)
  are modelled as `Option`; TypeScript numbers occurring here are counts
  and page indices, modelled as `Int`.
-/

/-- `SummaryResponse` DTO from `app.service.ts`. -/
structure SummaryResponse where
  total_accounts : Int
  active_accounts : Int
  inactive_accounts : Int
  total_notifications_billed : Int
  avg_notifications_billed_per_active : Int
  total_messages_processed : Int
  avg_messages_per_account : Int
  avg_health_score : Int
  at_risk_accounts : Int
  churned_accounts : Int
deriving DecidableEq, Repr

/-- `AccountInsights` DTO from `app.service.ts`. -/
structure AccountInsights where
  account_label : String
  subscription_status : String
  health_score : Int
  automation_count : Int
  total_records : Int
  messages_processed : Int
  notifications_billed : Int
  churn_risk : String
deriving DecidableEq, Repr

/-- `PaginatedRecordsResponse` DTO from `app.service.ts`. -/
structure PaginatedRecordsResponse where
  page : Int
  page_size : Int
  total_items : Int
  total_pages : Int
  items : List AccountInsights
deriving DecidableEq, Repr

/-- `HealthByStatusItem` DTO from `app.service.ts`. -/
structure HealthByStatusItem where
  status : String
  account_count : Int
deriving DecidableEq, Repr

/-- `NotificationsOverTimeItem` DTO from `app.service.ts`. -/
structure NotificationsOverTimeItem where
  date : String
  total_notifications_billed : Int
deriving DecidableEq, Repr

/-- HTTP methods.  Only `GET` is ever used by the service. -/
inductive HttpMethod where
  | GET
  | POST
  | PUT
  | PATCH
  | DELETE
deriving DecidableEq, Repr

/-- An HTTP request as assembled by `AppService`: the method, the URL and
the query parameters built with `HttpParams`. -/
structure Request where
  method : HttpMethod
  url : String
  params : List (String × String)
deriving DecidableEq, Repr

/-- `private baseUrl = 'http://localhost:8000'` in `AppService`. -/
def baseUrl : String := "http://localhost:8000"

/-- `AppService.getSummary`: `GET ${baseUrl}/summary`. -/
def getSummary : Request :=
  { method := .GET, url := baseUrl ++ "/summary", params := [] }

/-- TypeScript truthiness of a `string | undefined` value: `undefined` and
the empty string are falsy, all other strings are truthy.  This is the test
performed by `if (status)` and `if (search)` in `getRecords`. -/
def strTruthy : Option String → Bool
  | none => false
  | some s => s ≠ ""

/-- `AppService.getRecords`: builds `HttpParams` with `page` and
`page_size` always set, then conditionally `status` (`if (status)`),
`min_health` (`if (minHealth != null)`) and `search` (`if (search)`), and
issues `GET ${baseUrl}/records` with those parameters. -/
def getRecords (page pageSize : Int) (status : Option String)
    (minHealth : Option Int) (search : Option String) : Request :=
  let params : List (String × String) :=
    [("page", toString page), ("page_size", toString pageSize)]
  let params := match status with
    | some s => if s ≠ "" then params ++ [("status", s)] else params
    | none => params
  let params := match minHealth with
    | some m => params ++ [("min_health", toString m)]
    | none => params
  let params := match search with
    | some s => if s ≠ "" then params ++ [("search", s)] else params
    | none => params
  { method := .GET, url := baseUrl ++ "/records", params := params }

/-- `AppService.getHealthByStatus`: `GET ${baseUrl}/analytics/health-by-status`. -/
def getHealthByStatus : Request :=
  { method := .GET, url := baseUrl ++ "/analytics/health-by-status", params := [] }

/-- `AppService.getNotificationsOverTime`:
`GET ${baseUrl}/analytics/notifications-over-time`. -/
def getNotificationsOverTime : Request :=
  { method := .GET, url := baseUrl ++ "/analytics/notifications-over-time", params := [] }

/-- A chart dataset `{ data: number[]; label: string }` as used by the
bar/line chart fields of the component. -/
structure ChartDataset where
  data : List Int
  label : String
deriving DecidableEq, Repr

/-- The fields of `AppComponent` (`app.component.ts`).  `undefined`-able
fields are `Option`s; the chart `options` objects carry no data and are
omitted. -/
structure AppComponent where
  summary : Option SummaryResponse
  loadingSummary : Bool
  summaryError : Option String
  records : List AccountInsights
  recordsLoading : Bool
  recordsError : Option String
  page : Int
  pageSize : Int
  totalPages : Int
  filterStatus : String
  filterMinHealth : Option Int
  filterSearch : String
  pieLabels : List String
  pieData : List Int
  healthBarLabels : List String
  healthBarDatasets : List ChartDataset
  notificationsLineLabels : List String
  notificationsLineDatasets : List ChartDataset
  topAccountsBarLabels : List String
  topAccountsBarDatasets : List ChartDataset
deriving DecidableEq, Repr

/-- The field initializers of `AppComponent`. -/
def initComponent : AppComponent where
  summary := none
  loadingSummary := false
  summaryError := none
  records := []
  recordsLoading := false
  recordsError := none
  page := 1
  pageSize := 5
  totalPages := 1
  filterStatus := ""
  filterMinHealth := none
  filterSearch := ""
  pieLabels := ["Active", "Inactive"]
  pieData := [0, 0]
  healthBarLabels := []
  healthBarDatasets := [{ data := [], label := "Accounts" }]
  notificationsLineLabels := []
  notificationsLineDatasets := [{ data := [], label := "Notifications Billed" }]
  topAccountsBarLabels := []
  topAccountsBarDatasets := [{ data := [], label := "Notifications Billed" }]

/-- Synchronous part of `loadSummary`: sets the loading flag, clears the
error and issues the `getSummary` request. -/
def loadSummaryStart (s : AppComponent) : AppComponent × List Request :=
  ({ s with loadingSummary := true, summaryError := none }, [getSummary])

/-- `next` handler of `loadSummary`: stores the summary, clears the loading
flag and syncs the pie chart with `[active_accounts, inactive_accounts]`. -/
def loadSummarySuccess (s : AppComponent) (data : SummaryResponse) : AppComponent :=
  { s with summary := some data, loadingSummary := false,
           pieData := [data.active_accounts, data.inactive_accounts] }

/-- `error` handler of `loadSummary`: sets the error string and clears the
loading flag (the `console.error` call has no state effect). -/
def loadSummaryError (s : AppComponent) : AppComponent :=
  { s with summaryError := some "Could not load summary data", loadingSummary := false }

/-- Synchronous part of `loadRecords`: sets the loading flag, clears the
error, converts empty filters to `undefined` (`this.filterStatus ||
undefined`, `this.filterMinHealth != null ? this.filterMinHealth :
undefined`, `this.filterSearch || undefined`) and issues the `getRecords`
request with the current page, page size and filters. -/
def loadRecordsStart (s : AppComponent) : AppComponent × List Request :=
  let status := if s.filterStatus = "" then none else some s.filterStatus
  let minHealth := match s.filterMinHealth with
    | some m => some m
    | none => none
  let search := if s.filterSearch = "" then none else some s.filterSearch
  ({ s with recordsLoading := true, recordsError := none },
   [getRecords s.page s.pageSize status minHealth search])

/-- The comparator of `updateTopAccountsChart`,
`(a, b) => b.notifications_billed - a.notifications_billed`: `a` sorts no
later than `b` exactly when `a.notifications_billed ≥ b.notifications_billed`. -/
def notifGE (a b : AccountInsights) : Prop :=
  b.notifications_billed ≤ a.notifications_billed

instance : DecidableRel notifGE := fun a b =>
  inferInstanceAs (Decidable (b.notifications_billed ≤ a.notifications_billed))

instance : IsTotal AccountInsights notifGE :=
  ⟨fun a b => le_total b.notifications_billed a.notifications_billed⟩

instance : IsTrans AccountInsights notifGE :=
  ⟨fun _ _ _ h h' => le_trans h' h⟩

/-- The sort performed by `updateTopAccountsChart` on a copy of
`this.records`: descending by `notifications_billed` (JavaScript
`Array.prototype.sort` is stable, as is insertion sort). -/
def sortByNotifDesc (l : List AccountInsights) : List AccountInsights :=
  List.insertionSort notifGE l

/-- `updateTopAccountsChart`: sorts a copy `[...this.records]` descending
by `notifications_billed`, takes the first 5, and rebuilds the top-accounts
bar labels and dataset from them.  `this.records` itself is not assigned. -/
def updateTopAccountsChart (s : AppComponent) : AppComponent :=
  let sorted := (sortByNotifDesc s.records).take 5
  { s with topAccountsBarLabels := sorted.map (·.account_label),
           topAccountsBarDatasets :=
             [{ data := sorted.map (·.notifications_billed),
                label := "Notifications Billed" }] }

/-- `next` handler of `loadRecords`: stores the items and `total_pages`,
clears the loading flag and updates the dependent top-accounts chart. -/
def loadRecordsSuccess (s : AppComponent) (resp : PaginatedRecordsResponse) : AppComponent :=
  updateTopAccountsChart
    { s with records := resp.items, totalPages := resp.total_pages,
             recordsLoading := false }

/-- `error` handler of `loadRecords`: sets the error string and clears the
loading flag. -/
def loadRecordsError (s : AppComponent) : AppComponent :=
  { s with recordsError := some "Could not load account records",
           recordsLoading := false }

/-- `applyFilters`: resets `page` to 1 and reloads the records. -/
def applyFilters (s : AppComponent) : AppComponent × List Request :=
  loadRecordsStart { s with page := 1 }

/-- `clearFilters`: resets all filters and `page`, then reloads the records. -/
def clearFilters (s : AppComponent) : AppComponent × List Request :=
  loadRecordsStart
    { s with filterStatus := "", filterMinHealth := none, filterSearch := "",
             page := 1 }

/-- `nextPage`: increments `page` and reloads, only when `page < totalPages`. -/
def nextPage (s : AppComponent) : AppComponent × List Request :=
  if s.page < s.totalPages then loadRecordsStart { s with page := s.page + 1 }
  else (s, [])

/-- `prevPage`: decrements `page` and reloads, only when `page > 1`. -/
def prevPage (s : AppComponent) : AppComponent × List Request :=
  if 1 < s.page then loadRecordsStart { s with page := s.page - 1 }
  else (s, [])

/-- Synchronous part of `loadHealthByStatus`: issues the request; the
method touches no state before subscribing. -/
def loadHealthByStatusStart (s : AppComponent) : AppComponent × List Request :=
  (s, [getHealthByStatus])

/-- `next` handler of `loadHealthByStatus`: binds labels and dataset. -/
def loadHealthByStatusSuccess (s : AppComponent) (items : List HealthByStatusItem) : AppComponent :=
  { s with healthBarLabels := items.map (·.status),
           healthBarDatasets :=
             [{ data := items.map (·.account_count), label := "Accounts" }] }

/-- `error` handler of `loadHealthByStatus`: only `console.error`, which
has no effect on the component state. -/
def loadHealthByStatusError (s : AppComponent) : AppComponent := s

/-- Synchronous part of `loadNotificationsOverTime`: issues the request;
the method touches no state before subscribing. -/
def loadNotificationsOverTimeStart (s : AppComponent) : AppComponent × List Request :=
  (s, [getNotificationsOverTime])

/-- `next` handler of `loadNotificationsOverTime`: binds labels/dataset. -/
def loadNotificationsOverTimeSuccess (s : AppComponent)
    (items : List NotificationsOverTimeItem) : AppComponent :=
  { s with notificationsLineLabels := items.map (·.date),
           notificationsLineDatasets :=
             [{ data := items.map (·.total_notifications_billed),
                label := "Notifications Billed" }] }

/-- `error` handler of `loadNotificationsOverTime`: only `console.error`,
which has no effect on the component state. -/
def loadNotificationsOverTimeError (s : AppComponent) : AppComponent := s

/-- `ngOnInit`: calls the four load methods in order. -/
def ngOnInit (s : AppComponent) : AppComponent × List Request :=
  let (s1, r1) := loadSummaryStart s
  let (s2, r2) := loadRecordsStart s1
  let (s3, r3) := loadHealthByStatusStart s2
  let (s4, r4) := loadNotificationsOverTimeStart s3
  (s4, r1 ++ r2 ++ r3 ++ r4)

/-- Every externally triggerable transition of the component: lifecycle
init, the UI-bound methods, and each subscription handler firing. -/
inductive ComponentEvent where
  | init
  | callLoadSummary
  | callLoadRecords
  | callLoadHealthByStatus
  | callLoadNotificationsOverTime
  | callApplyFilters
  | callClearFilters
  | callNextPage
  | callPrevPage
  | summarySuccess (data : SummaryResponse)
  | summaryError
  | recordsSuccess (resp : PaginatedRecordsResponse)
  | recordsError
  | healthSuccess (items : List HealthByStatusItem)
  | healthError
  | notificationsSuccess (items : List NotificationsOverTimeItem)
  | notificationsError

/-- One transition step: the new state and the requests issued by it. -/
def step (s : AppComponent) : ComponentEvent → AppComponent × List Request
  | .init => ngOnInit s
  | .callLoadSummary => loadSummaryStart s
  | .callLoadRecords => loadRecordsStart s
  | .callLoadHealthByStatus => loadHealthByStatusStart s
  | .callLoadNotificationsOverTime => loadNotificationsOverTimeStart s
  | .callApplyFilters => applyFilters s
  | .callClearFilters => clearFilters s
  | .callNextPage => nextPage s
  | .callPrevPage => prevPage s
  | .summarySuccess data => (loadSummarySuccess s data, [])
  | .summaryError => (loadSummaryError s, [])
  | .recordsSuccess resp => (loadRecordsSuccess s resp, [])
  | .recordsError => (loadRecordsError s, [])
  | .healthSuccess items => (loadHealthByStatusSuccess s items, [])
  | .healthError => (loadHealthByStatusError s, [])
  | .notificationsSuccess items => (loadNotificationsOverTimeSuccess s items, [])
  | .notificationsError => (loadNotificationsOverTimeError s, [])

/-- Run a sequence of events, collecting every request issued along the way. -/
def runEvents (s : AppComponent) : List ComponentEvent → AppComponent × List Request
  | [] => (s, [])
  | e :: es =>
    let (s1, rs) := step s e
    let (s2, rs') := runEvents s1 es
    (s2, rs ++ rs')

/-- The pagination invariant of §8 of the spec: `1 ≤ page ≤ totalPages`. -/
def pageInv (s : AppComponent) : Prop :=
  1 ≤ s.page ∧ s.page ≤ s.totalPages

instance (s : AppComponent) : Decidable (pageInv s) :=
  inferInstanceAs (Decidable (_ ∧ _))

/-- Overlapping `loadRecords` requests: each response, in its order of
arrival, fires the `next` handler of its own subscription, which
unconditionally overwrites the view state. -/
def deliverRecordsResponses (s : AppComponent)
    (resps : List PaginatedRecordsResponse) : AppComponent :=
  resps.foldl loadRecordsSuccess s

/-- The assembled request carries a query parameter with key `k`. -/
def hasParam (r : Request) (k : String) : Prop :=
  k ∈ r.params.map Prod.fst

instance (r : Request) (k : String) : Decidable (hasParam r k) :=
  inferInstanceAs (Decidable (k ∈ r.params.map Prod.fst))

/-- C1: the query string of `getRecords` contains `page` and `page_size`
set to the given values, contains `status` iff `status` is a non-empty
string, contains `min_health` iff `minHealth` is neither null nor
undefined, and contains `search` iff `search` is a non-empty string; and
`loadRecords` passes the component's current page, page size and filters
(empty-string filters mapped to `undefined`) as those arguments. -/
theorem getRecords_query_translation (page pageSize : Int)
    (status : Option String) (minHealth : Option Int) (search : Option String)
    (s : AppComponent) :
    (("page", toString page) ∈ (getRecords page pageSize status minHealth search).params ∧
     ("page_size", toString pageSize) ∈ (getRecords page pageSize status minHealth search).params) ∧
    (hasParam (getRecords page pageSize status minHealth search) "status" ↔
      ∃ v, status = some v ∧ v ≠ "") ∧
    (hasParam (getRecords page pageSize status minHealth search) "min_health" ↔
      minHealth ≠ none) ∧
    (hasParam (getRecords page pageSize status minHealth search) "search" ↔
      ∃ v, search = some v ∧ v ≠ "") ∧
    (loadRecordsStart s).2 =
      [getRecords s.page s.pageSize
        (if s.filterStatus = "" then none else some s.filterStatus)
        s.filterMinHealth
        (if s.filterSearch = "" then none else some s.filterSearch)] := by
  refine ⟨?_, ?_, ?_, ?_, ?_⟩
  · rcases status with _ | st <;> rcases minHealth with _ | mh <;>
      rcases search with _ | se <;>
      simp only [getRecords, hasParam] <;> (try split_ifs) <;> simp_all
  · rcases status with _ | st <;> rcases minHealth with _ | mh <;>
      rcases search with _ | se <;>
      simp only [getRecords, hasParam] <;> (try split_ifs) <;> simp_all
  · rcases status with _ | st <;> rcases minHealth with _ | mh <;>
      rcases search with _ | se <;>
      simp only [getRecords, hasParam] <;> (try split_ifs) <;> simp_all
  · rcases status with _ | st <;> rcases minHealth with _ | mh <;>
      rcases search with _ | se <;>
      simp only [getRecords, hasParam] <;> (try split_ifs) <;> simp_all
  · cases hm : s.filterMinHealth <;> simp [loadRecordsStart, hm]

/-- C9: a failed `loadRecords` leaves `records`, `totalPages`, `page` and
the top-accounts chart state exactly as they were before the request;
only `recordsError` and `recordsLoading` are modified, both by the error
handler alone and across the whole start-then-fail round trip. -/
theorem loadRecords_error_frame (s : AppComponent) :
    ((loadRecordsError s).records = s.records ∧
     (loadRecordsError s).totalPages = s.totalPages ∧
     (loadRecordsError s).page = s.page ∧
     (loadRecordsError s).topAccountsBarLabels = s.topAccountsBarLabels ∧
     (loadRecordsError s).topAccountsBarDatasets = s.topAccountsBarDatasets) ∧
    loadRecordsError s =
      { s with recordsError := some "Could not load account records",
               recordsLoading := false } ∧
    loadRecordsError (loadRecordsStart s).1 =
      { s with recordsError := some "Could not load account records",
               recordsLoading := false } := by
  exact ⟨⟨rfl, rfl, rfl, rfl, rfl⟩, rfl, rfl⟩

/-- C10: `updateTopAccountsChart` never modifies the records array: the
sort runs on the copy `[...this.records]`, so `this.records` is
element-for-element equal, in the same order, to its value before. -/
theorem updateTopAccountsChart_records_frame (s : AppComponent) :
    (updateTopAccountsChart s).records = s.records ∧
    ∀ i : Nat, (updateTopAccountsChart s).records.get? i = s.records.get? i := by
  exact ⟨rfl, fun _ => rfl⟩

/-- A reachable component state (reach page 3 of a 3-page listing, then the
server reports only 1 page): `pageInv` holds before the response lands. -/
def pageInvCexState : AppComponent :=
  { initComponent with page := 2, totalPages := 3 }

/-- A well-formed server response whose `total_pages` (1) is below the
component's current `page` (2). -/
def pageInvCexResp : PaginatedRecordsResponse :=
  { page := 1, page_size := 5, total_items := 0, total_pages := 1, items := [] }

/-- C2 counterexample: the `loadRecords` success handler does not preserve
`1 ≤ page ≤ totalPages` for an arbitrary response — it blindly overwrites
`totalPages` with the server's `total_pages` while leaving `page` alone, so
a response with `total_pages = 1` and a current `page = 2` breaks the
invariant. -/
theorem pageInv_broken_by_arbitrary_response :
    pageInv pageInvCexState ∧
    ¬ pageInv (loadRecordsSuccess pageInvCexState pageInvCexResp) := by
  decide

/-- C2 amended: `1 ≤ page ≤ totalPages` holds initially and is preserved by
`nextPage`, `prevPage`, `applyFilters` and `clearFilters`; the `loadRecords`
success handler preserves it only when the response's `total_pages` is at
least the current `page` (it overwrites `totalPages` for an arbitrary
response, which can break the invariant). -/
theorem pageInv_preserved (s : AppComponent) (resp : PaginatedRecordsResponse)
    (h : pageInv s) :
    pageInv initComponent ∧
    pageInv (nextPage s).1 ∧
    pageInv (prevPage s).1 ∧
    pageInv (applyFilters s).1 ∧
    pageInv (clearFilters s).1 ∧
    (s.page ≤ resp.total_pages → pageInv (loadRecordsSuccess s resp)) := by
  obtain ⟨h1, h2⟩ := h
  refine ⟨by decide, ?_, ?_, ?_, ?_, ?_⟩
  · unfold nextPage loadRecordsStart
    split <;> simp [pageInv] <;> omega
  · unfold prevPage loadRecordsStart
    split <;> simp [pageInv] <;> omega
  · unfold applyFilters loadRecordsStart
    simp [pageInv]
    omega
  · unfold clearFilters loadRecordsStart
    simp [pageInv]
    omega
  · intro hle
    unfold loadRecordsSuccess updateTopAccountsChart
    simp [pageInv]
    omega

/-- C2 witness: the preserved part at a concrete state and response. -/
theorem pageInv_preserved_witness :
    pageInv initComponent ∧
    pageInv (nextPage initComponent).1 ∧
    pageInv (prevPage initComponent).1 ∧
    pageInv (applyFilters initComponent).1 ∧
    pageInv (clearFilters initComponent).1 ∧
    (initComponent.page ≤ pageInvCexResp.total_pages →
      pageInv (loadRecordsSuccess initComponent pageInvCexResp)) :=
  pageInv_preserved initComponent pageInvCexResp (by decide)

/-- C3: after every successful `loadRecords`, the top-accounts labels and
dataset are exactly the `account_label`s and `notifications_billed` values
of the first `min 5 n` elements of the loaded records sorted descending by
`notifications_billed`. -/
theorem topAccounts_top5_of_loaded (s : AppComponent)
    (resp : PaginatedRecordsResponse) :
    ∃ sorted : List AccountInsights,
      List.Perm sorted resp.items ∧
      List.Sorted notifGE sorted ∧
      (loadRecordsSuccess s resp).records = resp.items ∧
      (loadRecordsSuccess s resp).topAccountsBarLabels =
        (sorted.take 5).map (·.account_label) ∧
      (loadRecordsSuccess s resp).topAccountsBarDatasets =
        [{ data := (sorted.take 5).map (·.notifications_billed),
           label := "Notifications Billed" }] ∧
      (sorted.take 5).length = min 5 resp.items.length := by
  refine ⟨sortByNotifDesc resp.items,
    List.perm_insertionSort notifGE resp.items,
    List.sorted_insertionSort notifGE resp.items, rfl, rfl, rfl, ?_⟩
  rw [List.length_take, sortByNotifDesc, List.length_insertionSort]

/-- C4 counterexample: the `error` handlers of `loadHealthByStatus` and
`loadNotificationsOverTime` only log to the console: they leave the
component state entirely unchanged, so no loading flag is cleared and no
error string is set for these two requests — the component has no such
fields for them at all. -/
theorem chart_errors_not_surfaced :
    loadHealthByStatusError initComponent = initComponent ∧
    loadNotificationsOverTimeError initComponent = initComponent ∧
    (loadHealthByStatusError initComponent).summaryError = none ∧
    (loadHealthByStatusError initComponent).recordsError = none ∧
    (loadNotificationsOverTimeError initComponent).summaryError = none ∧
    (loadNotificationsOverTimeError initComponent).recordsError = none :=
  ⟨rfl, rfl, rfl, rfl, rfl, rfl⟩

/-- C4 amended: failures of `loadSummary` and `loadRecords` are surfaced as
a loading-flag/error-string pair; failures of `loadHealthByStatus` and
`loadNotificationsOverTime` are caught but only logged, leaving the state
unchanged; no error handler issues any request (no retries). -/
theorem errors_surfaced_no_retry (s : AppComponent) :
    ((loadSummaryError s).loadingSummary = false ∧
     (loadSummaryError s).summaryError = some "Could not load summary data") ∧
    ((loadRecordsError s).recordsLoading = false ∧
     (loadRecordsError s).recordsError = some "Could not load account records") ∧
    loadHealthByStatusError s = s ∧
    loadNotificationsOverTimeError s = s ∧
    (step s .summaryError).2 = [] ∧
    (step s .recordsError).2 = [] ∧
    (step s .healthError).2 = [] ∧
    (step s .notificationsError).2 = [] :=
  ⟨⟨rfl, rfl⟩, ⟨rfl, rfl⟩, rfl, rfl, rfl, rfl, rfl, rfl⟩

/-- C5: the four service methods hit exactly `/summary`, `/records` (whose
query keys all come from `page`, `page_size`, `status`, `min_health`,
`search`), `/analytics/health-by-status` and
`/analytics/notifications-over-time` under the base URL. -/
theorem service_paths (page pageSize : Int) (status : Option String)
    (minHealth : Option Int) (search : Option String) :
    getSummary.url = baseUrl ++ "/summary" ∧
    (getRecords page pageSize status minHealth search).url = baseUrl ++ "/records" ∧
    (∀ kv ∈ (getRecords page pageSize status minHealth search).params,
      kv.1 ∈ ["page", "page_size", "status", "min_health", "search"]) ∧
    getHealthByStatus.url = baseUrl ++ "/analytics/health-by-status" ∧
    getNotificationsOverTime.url = baseUrl ++ "/analytics/notifications-over-time" := by
  refine ⟨rfl, rfl, ?_, rfl, rfl⟩
  rcases status with _ | st <;> rcases minHealth with _ | mh <;>
    rcases search with _ | se <;>
    simp only [getRecords] <;> (try split_ifs) <;> simp_all

/-- C5 witness: the query-key part at concrete arguments. -/
theorem service_paths_witness :
    (("page", toString (1 : Int)) : String × String).1 ∈
      (["page", "page_size", "status", "min_health", "search"] : List String) :=
  (service_paths 1 5 none none none).2.2.1 ("page", toString (1 : Int))
    (by simp [getRecords])

/-- Every single transition issues only `GET` requests. -/
theorem step_requests_GET (s : AppComponent) (e : ComponentEvent) :
    ∀ r ∈ (step s e).2, r.method = .GET := by
  cases e <;>
    simp [step, ngOnInit, loadSummaryStart, loadRecordsStart,
      loadHealthByStatusStart, loadNotificationsOverTimeStart,
      applyFilters, clearFilters, nextPage, prevPage,
      getSummary, getRecords, getHealthByStatus, getNotificationsOverTime] <;>
    (try split) <;>
    simp +zetaDelta [getRecords, getSummary, getHealthByStatus,
      getNotificationsOverTime, loadRecordsStart]

/-- C6: every HTTP request that any sequence of component transitions can
ever issue is a read-only `GET`; no sequence produces a `POST`, `PUT`,
`PATCH` or `DELETE`. -/
theorem all_requests_GET (s : AppComponent) (es : List ComponentEvent) :
    ∀ r ∈ (runEvents s es).2, r.method = .GET := by
  induction es generalizing s with
  | nil => intro r hr; simp [runEvents] at hr
  | cons e es ih =>
    intro r hr
    simp only [runEvents] at hr
    rcases List.mem_append.mp hr with h | h
    · exact step_requests_GET s e r h
    · exact ih (step s e).1 r h

/-- C6 witness: the summary request issued by `ngOnInit` on the initial
state is a `GET`. -/
theorem all_requests_GET_witness : getSummary.method = .GET :=
  all_requests_GET initComponent [ComponentEvent.init] getSummary
    (by simp [runEvents, step, ngOnInit, loadSummaryStart, loadRecordsStart,
      loadHealthByStatusStart, loadNotificationsOverTimeStart])

/-- The response to the first-issued overlapping records request: one item,
7 total pages. -/
def respIssuedFirst : PaginatedRecordsResponse :=
  { page := 1, page_size := 5, total_items := 1, total_pages := 7,
    items := [{ account_label := "acme", subscription_status := "active",
                health_score := 80, automation_count := 1, total_records := 1,
                messages_processed := 10, notifications_billed := 3,
                churn_risk := "low" }] }

/-- The response to the second-issued overlapping records request: empty,
9 total pages. -/
def respIssuedSecond : PaginatedRecordsResponse :=
  { page := 2, page_size := 5, total_items := 0, total_pages := 9, items := [] }

/-- C7 counterexample: two records requests are issued in the order
(first, second) but their responses arrive out of order — the second-issued
request's response lands first, then the first-issued one.  Each arrival
fires its subscription's `next` handler (no cancellation), so the final
view state reflects the FIRST-issued request, not the most recently issued
one. -/
theorem latest_issued_does_not_always_win :
    (deliverRecordsResponses initComponent [respIssuedSecond, respIssuedFirst]).records
        = respIssuedFirst.items ∧
    (deliverRecordsResponses initComponent [respIssuedSecond, respIssuedFirst]).totalPages
        = respIssuedFirst.total_pages ∧
    (deliverRecordsResponses initComponent [respIssuedSecond, respIssuedFirst]).records
        ≠ respIssuedSecond.items ∧
    (deliverRecordsResponses initComponent [respIssuedSecond, respIssuedFirst]).totalPages
        ≠ respIssuedSecond.total_pages := by
  decide

/-- C7 amended: with no cancellation or ordering of in-flight
subscriptions, the view state (`records`, `totalPages`) ends up reflecting
whichever response is DELIVERED last; only when responses arrive in issue
order is that the most recently issued request. -/
theorem last_delivered_response_wins (s : AppComponent)
    (resps : List PaginatedRecordsResponse) (r : PaginatedRecordsResponse)
    (h : resps.getLast? = some r) :
    (deliverRecordsResponses s resps).records = r.items ∧
    (deliverRecordsResponses s resps).totalPages = r.total_pages := by
  induction resps generalizing s with
  | nil => simp at h
  | cons a as ih =>
    cases as with
    | nil =>
      simp only [List.getLast?_singleton, Option.some.injEq] at h
      subst h
      exact ⟨rfl, rfl⟩
    | cons b bs =>
      rw [List.getLast?_cons_cons] at h
      exact ih (loadRecordsSuccess s a) h

/-- C7 witness: a single delivered response wins. -/
theorem last_delivered_response_wins_witness :
    (deliverRecordsResponses initComponent [respIssuedSecond]).records
        = respIssuedSecond.items ∧
    (deliverRecordsResponses initComponent [respIssuedSecond]).totalPages
        = respIssuedSecond.total_pages :=
  last_delivered_response_wins initComponent [respIssuedSecond] respIssuedSecond rfl

/-- C8: `ngOnInit` issues exactly the four requests — summary, records
(with the current pagination/filter state), health-by-status and
notifications-over-time, in that order — and each load operation's `next`
handler binds its response shape to the corresponding view state. -/
theorem ngOnInit_four_endpoints (s : AppComponent) (data : SummaryResponse)
    (resp : PaginatedRecordsResponse) (hItems : List HealthByStatusItem)
    (nItems : List NotificationsOverTimeItem) :
    (ngOnInit s).2 =
      [getSummary,
       getRecords s.page s.pageSize
         (if s.filterStatus = "" then none else some s.filterStatus)
         s.filterMinHealth
         (if s.filterSearch = "" then none else some s.filterSearch),
       getHealthByStatus,
       getNotificationsOverTime] ∧
    (loadSummarySuccess s data).summary = some data ∧
    (loadSummarySuccess s data).pieData = [data.active_accounts, data.inactive_accounts] ∧
    (loadRecordsSuccess s resp).records = resp.items ∧
    (loadRecordsSuccess s resp).totalPages = resp.total_pages ∧
    (loadHealthByStatusSuccess s hItems).healthBarLabels = hItems.map (·.status) ∧
    (loadHealthByStatusSuccess s hItems).healthBarDatasets =
      [{ data := hItems.map (·.account_count), label := "Accounts" }] ∧
    (loadNotificationsOverTimeSuccess s nItems).notificationsLineLabels =
      nItems.map (·.date) ∧
    (loadNotificationsOverTimeSuccess s nItems).notificationsLineDatasets =
      [{ data := nItems.map (·.total_notifications_billed),
         label := "Notifications Billed" }] := by
  refine ⟨?_, rfl, rfl, rfl, rfl, rfl, rfl, rfl, rfl⟩
  cases hm : s.filterMinHealth <;>
    simp [ngOnInit, loadSummaryStart, loadRecordsStart,
      loadHealthByStatusStart, loadNotificationsOverTimeStart, hm]
